import Mathlib

set_option maxRecDepth 4000

/-! Shallow embedding of the uhale photo-frame client (src/index.ts).

The embedding has two layers.

The first layer models the pure request/response plumbing and the
session-holding operations: the response envelope check of the private
method that performs an API call, the numeric-code to state mappings of
getSessionIdState, the private batch file-state query and the private
batch revoke-state query, and the operations (login, getTerminals,
uploadFile, ...) as explicit state passing over a recorded list of
network calls, with server behaviour supplied by an oracle indexed by
the position of the call in the request sequence.

The second layer is an event-level model of the three setInterval-based
polling loops (waitForLoggedIn, waitForFilesUploaded,
waitForFilesRevoked).  In the source each loop installs a 3000 ms
interval timer whose callback is async: the callback increments a
shared attempt counter, awaits the probe, and on the probe result
either clears the interval and settles the promise, or keeps polling.
The model advances millisecond by millisecond: at every multiple of the
interval a new probe is started unless the interval has been cleared
(setInterval fires regardless of any probe still in flight), each
started probe completes after its own latency, and the body that runs
at completion reproduces the source's success / failure / budget checks
against the shared attempt counter. -/

/-- Errors thrown by the client.  The source throws plain Error values;
each variant keeps one of the distinct messages used. -/
inductive UError where
  | noSessionId
  | credentialsRequired
  | api (code msg : String)
  | network
  | pollTimeout
deriving DecidableEq

/-- The data field of a response envelope, as consumed by the client.
The source casts the parsed JSON blindly to the expected shape; the
projections below model that unchecked cast, defaulting on a shape
mismatch (no claim exercises a mismatch). -/
inductive RData where
  | str (s : String)
  | loginPayload (userToken expireAt : String)
  | presigned (awsUploadUrl fileUrl fileId : String)
  | fileStates (entries : List (String × Option String))
  | strs (l : List String)
  | terminals (raw : List String)
  | null
deriving DecidableEq

def RData.asStr : RData → String
  | .str s => s
  | _ => ""

def RData.asLogin : RData → String × String
  | .loginPayload t e => (t, e)
  | _ => ("", "")

def RData.asPresigned : RData → String × String × String
  | .presigned a f i => (a, f, i)
  | _ => ("", "", "")

def RData.asFileStates : RData → List (String × Option String)
  | .fileStates m => m
  | _ => []

def RData.asStrs : RData → List String
  | .strs l => l
  | _ => []

/-- A response envelope.  The source declares errorCode as a string but
only ever tests its truthiness, so absence (undefined in a real
response) is modelled by none and the empty string stays a falsy
some. -/
structure Envelope where
  errorCode : Option String
  errorMsg : String
  data : RData
deriving DecidableEq

/-- The envelope check of the private API-call helper: it throws
exactly when errorCode is truthy (present and non-empty) and differs
from the zero sentinel, and otherwise returns the data field. -/
def callApiResult (e : Envelope) : Except UError RData :=
  match e.errorCode with
  | none => .ok e.data
  | some c => if c = "" then .ok e.data else if c = "0" then .ok e.data else .error (.api c e.errorMsg)

/-- The transport-level outcome of one network round-trip: either an
envelope was parsed, or fetch / json rejected. -/
inductive NetResult where
  | env (e : Envelope)
  | netFail
deriving DecidableEq

/-- What the private API-call helper yields for one round-trip. -/
def netResult (r : NetResult) : Except UError RData :=
  match r with
  | .netFail => .error .network
  | .env e => callApiResult e

/-- Session-state map of getSessionIdState: an object keyed 0..4 is
indexed with the data string and unrecognized keys default to
unknown. -/
def sessionStateOf (code : String) : String :=
  if code = "0" then "loggedOut"
  else if code = "1" then "scanned"
  else if code = "2" then "loggedIn"
  else if code = "3" then "failed"
  else if code = "4" then "expired"
  else "unknown"

/-- Per-identifier state map of the private batch file-state query.  The
source computes states[fileState] ?? fileState ?? 'unknown': recognized
codes map through the table, an unrecognized non-nullish code falls
through the first nullish-coalescing step and is returned verbatim, and
only a nullish code becomes unknown. -/
def fileStateOf (code : Option String) : String :=
  match code with
  | none => "unknown"
  | some c =>
    if c = "1" then "pending"
    else if c = "2" then "uploaded"
    else if c = "3" then "uploaded"
    else c

/-- Per-identifier state map of the private batch revoke-state query:
states[fileState] ?? 'unknown', so everything unrecognized (nullish or
not) becomes unknown. -/
def revokeStateOf (code : Option String) : String :=
  match code with
  | none => "unknown"
  | some c =>
    if c = "1" then "pending"
    else if c = "2" then "revoked"
    else "unknown"

/-- Object.entries mapping of the batch file-state response. -/
def fileStateEntries (m : List (String × Option String)) : List (String × String) :=
  m.map (fun en => (en.1, fileStateOf en.2))

/-- Object.entries mapping of the batch revoke-state response. -/
def revokeStateEntries (m : List (String × Option String)) : List (String × String) :=
  m.map (fun en => (en.1, revokeStateOf en.2))

/-- The user credential stored after a successful credential exchange.
The source stores Number(data.expireAt); the numeric coercion is
modelled by toInt? with default 0 (no claim depends on the value). -/
def jsNumber (s : String) : Int :=
  (s.toInt?).getD 0

structure UhaleUser where
  token : String
  expiresAt : Int
deriving DecidableEq

/-- The two mutable fields of the client instance. -/
structure ClientState where
  sessionId : Option String
  user : Option UhaleUser
deriving DecidableEq

/-- One network call, identified by endpoint and the request payload
relevant to the claims.  The time-based cache-buster of the presigned
request and the constant headers are not recorded. -/
inductive NetCall where
  | sessionIdAnon
  | sessionIdAuth (userToken : String)
  | deviceLogin (email pwd : String)
  | sessionIdStateQ (sid : String)
  | presignedUrlQ (ext : String) (fileSize : Nat) (terminalId : String) (offlineStorage : Bool)
  | putUpload (uploadUrl : String)
  | saveFile (fileUrl fileId : String) (fileSize : Nat) (subject terminalId : String)
  | getFileStateQ (fileIds : List String)
  | revokeQ (terminalId : String) (fileIds : List String)
  | revokeStateQ (fileIds : List String)
  | terminalQ
deriving DecidableEq

/-- Execution state of an operation: the client fields, the network
calls issued so far in order, and the oracle cursor. -/
structure OpSt where
  client : ClientState
  calls : List NetCall
  idx : Nat
deriving DecidableEq

/-- A fresh client: both mutable fields start null, nothing issued. -/
def st0 : OpSt :=
  { client := { sessionId := none, user := none }, calls := [], idx := 0 }

/-- One call through the private API helper: the call is recorded and
the oracle cursor advances no matter how the round-trip ends, and the
result is the envelope check applied to the transport outcome. -/
def callApiStep (oracle : Nat → NetResult) (st : OpSt) (c : NetCall) : OpSt × Except UError RData :=
  ({ st with idx := st.idx + 1, calls := st.calls ++ [c] }, netResult (oracle st.idx))

/-- The falsiness test the source applies to this.sessionId: null and
the empty string are both falsy. -/
def sessionFalsy (c : ClientState) : Prop :=
  c.sessionId.getD "" = ""

instance (c : ClientState) : Decidable (sessionFalsy c) := by
  unfold sessionFalsy; infer_instance

/-- The private session-acquisition method.  A truthy userToken selects
the authenticated endpoint, anything else the anonymous one; on success
the returned data replaces the stored session identifier. -/
def _getSessionId (tok : Option String) (oracle : Nat → NetResult) (st : OpSt) : OpSt × Except UError Unit :=
  let call : NetCall :=
    match tok with
    | none => .sessionIdAnon
    | some t => if t = "" then .sessionIdAnon else .sessionIdAuth t
  match callApiStep oracle st call with
  | (st2, .error e) => (st2, .error e)
  | (st2, .ok d) =>
    ({ st2 with client := { st2.client with sessionId := some d.asStr } }, .ok ())

/-- getSessionIdState: requires a truthy session identifier, then maps
the returned code through the session-state table. -/
def getSessionIdState (oracle : Nat → NetResult) (st : OpSt) : OpSt × Except UError String :=
  if sessionFalsy st.client then (st, .error .noSessionId)
  else
    match callApiStep oracle st (.sessionIdStateQ (st.client.sessionId.getD "")) with
    | (st2, .error e) => (st2, .error e)
    | (st2, .ok d) => (st2, .ok (sessionStateOf d.asStr))

/-- The private credential-exchange method: requires a truthy session,
posts the credentials, and on success stores the user token. -/
def _login (email pwd : String) (oracle : Nat → NetResult) (st : OpSt) : OpSt × Except UError Unit :=
  if sessionFalsy st.client then (st, .error .noSessionId)
  else
    match callApiStep oracle st (.deviceLogin email pwd) with
    | (st2, .error e) => (st2, .error e)
    | (st2, .ok d) =>
      ({ st2 with client := { st2.client with
          user := some { token := d.asLogin.1, expiresAt := jsNumber d.asLogin.2 } } }, .ok ())

/-- login: validates both credentials up front, then anonymous session
acquisition, credential exchange, authenticated session acquisition
using the freshly stored user token. -/
def login (email pwd : String) (oracle : Nat → NetResult) (st : OpSt) : OpSt × Except UError Unit :=
  if email = "" ∨ pwd = "" then (st, .error .credentialsRequired)
  else
    match _getSessionId none oracle st with
    | (st1, .error e) => (st1, .error e)
    | (st1, .ok _) =>
      match _login email pwd oracle st1 with
      | (st2, .error e) => (st2, .error e)
      | (st2, .ok _) =>
        _getSessionId (some ((st2.client.user.map (fun u => u.token)).getD "")) oracle st2

/-- getPresignedUrl: requires a truthy session; isImage picks the fixed
extension, offlineStorage defaults to false. -/
def getPresignedUrl (isImage : Bool) (fileSize : Nat) (terminalId : String)
    (offlineStorage : Option Bool) (oracle : Nat → NetResult) (st : OpSt) :
    OpSt × Except UError (String × String × String) :=
  if sessionFalsy st.client then (st, .error .noSessionId)
  else
    match callApiStep oracle st
        (.presignedUrlQ (if isImage then ".jpg" else ".mp4") fileSize terminalId
          (offlineStorage.getD false)) with
    | (st2, .error e) => (st2, .error e)
    | (st2, .ok d) => (st2, .ok d.asPresigned)

/-- saveUploadedFile: requires a truthy session, then registers the
uploaded object. -/
def saveUploadedFile (fileUrl fileId : String) (subject : String) (fileSize : Nat)
    (terminalId : String) (oracle : Nat → NetResult) (st : OpSt) : OpSt × Except UError Unit :=
  if sessionFalsy st.client then (st, .error .noSessionId)
  else
    match callApiStep oracle st (.saveFile fileUrl fileId fileSize subject terminalId) with
    | (st2, .error e) => (st2, .error e)
    | (st2, .ok _) => (st2, .ok ())

/-- The private batch file-state query. -/
def _getFileState (fileIds : List String) (oracle : Nat → NetResult) (st : OpSt) :
    OpSt × Except UError (List (String × String)) :=
  if sessionFalsy st.client then (st, .error .noSessionId)
  else
    match callApiStep oracle st (.getFileStateQ fileIds) with
    | (st2, .error e) => (st2, .error e)
    | (st2, .ok d) => (st2, .ok (fileStateEntries d.asFileStates))

/-- The private batch revoke-state query. -/
def _getFileRevokeState (fileIds : List String) (oracle : Nat → NetResult) (st : OpSt) :
    OpSt × Except UError (List (String × String)) :=
  if sessionFalsy st.client then (st, .error .noSessionId)
  else
    match callApiStep oracle st (.revokeStateQ fileIds) with
    | (st2, .error e) => (st2, .error e)
    | (st2, .ok d) => (st2, .ok (revokeStateEntries d.asFileStates))

/-- revokeFiles: requires a truthy session, then posts the revocation. -/
def revokeFiles (terminalId : String) (fileIds : List String) (oracle : Nat → NetResult)
    (st : OpSt) : OpSt × Except UError (List String) :=
  if sessionFalsy st.client then (st, .error .noSessionId)
  else
    match callApiStep oracle st (.revokeQ terminalId fileIds) with
    | (st2, .error e) => (st2, .error e)
    | (st2, .ok d) => (st2, .ok d.asStrs)

/-- getTerminals: requires a truthy session, then lists the terminals. -/
def getTerminals (oracle : Nat → NetResult) (st : OpSt) : OpSt × Except UError RData :=
  if sessionFalsy st.client then (st, .error .noSessionId)
  else
    match callApiStep oracle st .terminalQ with
    | (st2, .error e) => (st2, .error e)
    | (st2, .ok d) => (st2, .ok d)

/-- The budget test attempts >= maxAttempts of the polling loops.  The
default Infinity of the file polls is none: no finite attempt count
ever reaches it. -/
def maxHit (max : Option Int) (attempts : Nat) : Bool :=
  match max with
  | none => false
  | some m => decide ((attempts : Int) ≥ m)

/-- The upload-confirmation loop of the source rendered as a sequential
recursion (one probe fully observed before the next starts), used to
compose uploadFile; the event-level model below is the authority on the
timing behaviour.  Each round mirrors the interval callback: bump the
attempt counter, query the batch state, resolve when every entry
reports uploaded, reject with the polling timeout when the budget is
hit, otherwise continue.  Exhausted fuel reports false: still
polling. -/
def waitSeq (fileIds : List String) (maxAttempts : Option Int) (oracle : Nat → NetResult) :
    Nat → Nat → OpSt → OpSt × Except UError Bool
  | 0, _, st => (st, .ok false)
  | fuel + 1, attempts, st =>
    match _getFileState fileIds oracle st with
    | (st2, .error e) => (st2, .error e)
    | (st2, .ok entries) =>
      if entries.all (fun en => en.2 == "uploaded") then (st2, .ok true)
      else if maxHit maxAttempts (attempts + 1) then (st2, .error .pollTimeout)
      else waitSeq fileIds maxAttempts oracle fuel (attempts + 1) st2

/-- uploadFile: requires a truthy session; resolves the size, requests
the presigned descriptor, PUTs the body against the capability URL
(recorded as a call; putResult is the transport outcome of that PUT -
an error means fetch rejected, an ok carries the HTTP status of the
response, which the source never reads), registers the upload, then
polls for confirmation with the default unbounded budget and finally
returns the minted file identifier. -/
def uploadFile (isImage : Bool) (fileLen : Nat) (fileSize : Option Nat) (terminalId : String)
    (subject : Option String) (putResult : Except UError Nat) (pollFuel : Nat)
    (oracle : Nat → NetResult) (st : OpSt) : OpSt × Except UError String :=
  if sessionFalsy st.client then (st, .error .noSessionId)
  else
    let size := fileSize.getD fileLen
    match getPresignedUrl isImage size terminalId none oracle st with
    | (st1, .error e) => (st1, .error e)
    | (st1, .ok pres) =>
      let st2 : OpSt := { st1 with calls := st1.calls ++ [.putUpload pres.1] }
      match putResult with
      | .error e => (st2, .error e)
      | .ok _ =>
        match saveUploadedFile pres.2.1 pres.2.2 (subject.getD "") size terminalId oracle st2 with
        | (st3, .error e) => (st3, .error e)
        | (st3, .ok _) =>
          match waitSeq [pres.2.2] none oracle pollFuel 0 st3 with
          | (st4, .error e) => (st4, .error e)
          | (st4, .ok _) => (st4, .ok pres.2.2)

/-- Parameters of one polling run: the fixed tick interval (3000 ms in
every instantiation), the attempt budget, the result the k-th probe
will observe (an error models the probe throwing), the terminal-state
predicates, and the network latency of the k-th probe's round-trip. -/
structure PollParams (σ ε : Type) where
  interval : Nat
  max : Option Int
  probe : Nat → Except ε σ
  isSuccess : σ → Bool
  isFailure : σ → Bool
  latency : Nat → Nat

/-- How a polling promise settles. -/
inductive PollResult (σ ε : Type) where
  | resolved
  | pollFailed (s : σ)
  | pollTimeout
  | probeError (e : ε)
deriving DecidableEq

/-- Engine state: the shared attempt counter (bumped when a probe is
invoked, before its await), the probes in flight as (completion time,
probe index) in start order, whether clearInterval has run, and the
settled value of the promise (first settle wins). -/
structure EngineState (σ ε : Type) where
  attempts : Nat
  inflight : List (Nat × Nat)
  cleared : Bool
  settled : Option (PollResult σ ε)
deriving DecidableEq

/-- The checks the interval callback performs once its probe result is
in, using the shared attempt counter as it stands at that moment:
success resolves, failure rejects, an exhausted budget rejects with the
polling timeout, a thrown probe rejects with the thrown error, anything
else keeps polling (none). -/
def bodyAct (p : PollParams σ ε) (attempts : Nat) (i : Nat) : Option (PollResult σ ε) :=
  match p.probe i with
  | .error e => some (.probeError e)
  | .ok s =>
    if p.isSuccess s then some .resolved
    else if p.isFailure s then some (.pollFailed s)
    else if maxHit p.max attempts then some .pollTimeout
    else none

/-- Run the completion body of probe i: on any terminal outcome the
interval is cleared and the promise settles unless it already has
(resolve and reject are no-ops on a settled promise). -/
def applyBody (p : PollParams σ ε) (st : EngineState σ ε) (i : Nat) : EngineState σ ε :=
  match bodyAct p st.attempts i with
  | none => st
  | some r =>
    { st with
      cleared := true
      settled := match st.settled with
        | none => some r
        | some prev => some prev }

/-- Start probe number st.attempts at time t: the counter is bumped
immediately (the source increments before the await) and the probe's
completion is scheduled after its latency. -/
def invokeProbe (p : PollParams σ ε) (t : Nat) (st : EngineState σ ε) : EngineState σ ε :=
  { st with
    attempts := st.attempts + 1
    inflight := st.inflight ++ [(t + p.latency st.attempts, st.attempts)] }

/-- Run every completion due by time t, in start order. -/
def processCompletions (p : PollParams σ ε) (t : Nat) (st : EngineState σ ε) : EngineState σ ε :=
  (st.inflight.filter (fun c => decide (c.1 ≤ t))).foldl (fun s c => applyBody p s c.2)
    { st with inflight := st.inflight.filter (fun c => decide (t < c.1)) }

/-- One millisecond of the event loop at time t: the interval tick
first (it fires at every multiple of the interval until clearInterval
runs, regardless of probes still in flight; time 0 is the immediate
first call the source makes right after installing the interval), then
the completions due at t. -/
def stepEngine (p : PollParams σ ε) (t : Nat) (st : EngineState σ ε) : EngineState σ ε :=
  processCompletions p t
    (if t % p.interval = 0 ∧ st.cleared = false then invokeProbe p t st else st)

/-- Process times t, t+1, ..., t+d-1 starting from st. -/
def runAux (p : PollParams σ ε) : EngineState σ ε → Nat → Nat → EngineState σ ε
  | st, _, 0 => st
  | st, t, d + 1 => runAux p (stepEngine p t st) (t + 1) d

/-- Idle engine state: k probes started and all observed, nothing
settled. -/
def idleSt (k : Nat) : EngineState σ ε :=
  { attempts := k, inflight := [], cleared := false, settled := none }

/-- Settled engine state after k probes. -/
def doneSt (k : Nat) (r : PollResult σ ε) : EngineState σ ε :=
  { attempts := k, inflight := [], cleared := true, settled := some r }

def engineInit : EngineState σ ε := idleSt 0

/-- The engine state after the times 0..T have been processed. -/
def runEngine (p : PollParams σ ε) (T : Nat) : EngineState σ ε :=
  runAux p engineInit 0 (T + 1)

/-- The serialized regime: every probe's round-trip completes strictly
within one tick interval, so a probe is always observed before the next
tick fires. -/
def Serial (p : PollParams σ ε) : Prop :=
  2 ≤ p.interval ∧ ∀ i, 1 ≤ p.latency i ∧ p.latency i < p.interval

/-- A probe is invoked during the step at time t. -/
def probeInvokedAt (p : PollParams σ ε) (t : Nat) : Prop :=
  (runAux p engineInit 0 t).attempts < (stepEngine p t (runAux p engineInit 0 t)).attempts

/-- Some earlier probe's round-trip is still outstanding when time t is
processed. -/
def probeOutstandingAt (p : PollParams σ ε) (t : Nat) : Prop :=
  (runAux p engineInit 0 t).inflight ≠ []

/-- Serialization of a polling run: no probe is ever invoked while a
prior probe's round-trip is outstanding. -/
def SerializedProbes (p : PollParams σ ε) : Prop :=
  ∀ t, probeInvokedAt p t → ¬ probeOutstandingAt p t

/-- waitForLoggedIn as engine parameters: interval 3000 ms, success on
loggedIn, failure on failed or expired, default budget 5. -/
def waitForLoggedInP (maxAttempts : Option Int) (probe : Nat → Except UError String)
    (latency : Nat → Nat) : PollParams String UError :=
  { interval := 3000
    max := maxAttempts
    probe := probe
    isSuccess := fun s => s == "loggedIn"
    isFailure := fun s => (s == "failed") || (s == "expired")
    latency := latency }

/-- waitForFilesUploaded as engine parameters: success when every entry
reports uploaded, no failure predicate, default budget Infinity
(none). -/
def waitForFilesUploadedP (maxAttempts : Option Int)
    (probe : Nat → Except UError (List (String × String))) (latency : Nat → Nat) :
    PollParams (List (String × String)) UError :=
  { interval := 3000
    max := maxAttempts
    probe := probe
    isSuccess := fun entries => entries.all (fun en => en.2 == "uploaded")
    isFailure := fun _ => false
    latency := latency }

/-- waitForFilesRevoked as engine parameters: success when every entry
reports revoked, no failure predicate, default budget Infinity. -/
def waitForFilesRevokedP (maxAttempts : Option Int)
    (probe : Nat → Except UError (List (String × String))) (latency : Nat → Nat) :
    PollParams (List (String × String)) UError :=
  { interval := 3000
    max := maxAttempts
    probe := probe
    isSuccess := fun entries => entries.all (fun en => en.2 == "revoked")
    isFailure := fun _ => false
    latency := latency }

/-- What one getSessionIdState probe observes, given the stored session
identifier and the transport outcome of the i-th poll round-trip. -/
def sessionProbeOf (sessionId : Option String) (envs : Nat → NetResult) (i : Nat) :
    Except UError String :=
  if sessionId.getD "" = "" then .error .noSessionId
  else (netResult (envs i)).map (fun d => sessionStateOf d.asStr)

/-- What one batch file-state probe observes. -/
def fileStateProbeOf (sessionId : Option String) (envs : Nat → NetResult) (i : Nat) :
    Except UError (List (String × String)) :=
  if sessionId.getD "" = "" then .error .noSessionId
  else (netResult (envs i)).map (fun d => fileStateEntries d.asFileStates)

/-- What one batch revoke-state probe observes. -/
def revokeStateProbeOf (sessionId : Option String) (envs : Nat → NetResult) (i : Nat) :
    Except UError (List (String × String)) :=
  if sessionId.getD "" = "" then .error .noSessionId
  else (netResult (envs i)).map (fun d => revokeStateEntries d.asFileStates)

/-- A successful envelope carrying d. -/
def okEnv (d : RData) : NetResult :=
  .env { errorCode := some "0", errorMsg := "", data := d }

/-- Poll round-trips that always report session code 1 (scanned):
neither success nor failure for waitForLoggedIn. -/
def pendEnvs : Nat → NetResult := fun _ => okEnv (.str "1")

/-- Poll round-trips reporting scanned on the first probe and failed
(code 3) on every later probe. -/
def failEnvs : Nat → NetResult := fun i => okEnv (.str (if i = 0 then "1" else "3"))

/-- waitForLoggedIn with the default budget 5 against a server that
keeps answering scanned, with every round-trip taking 7000 ms - longer
than the 3000 ms tick interval. -/
def cexSlowLogin : PollParams String UError :=
  waitForLoggedInP (some 5) (sessionProbeOf (some "sid") pendEnvs) (fun _ => 7000)

/-- Same slow server, budget 1. -/
def cexBudgetOne : PollParams String UError :=
  waitForLoggedInP (some 1) (sessionProbeOf (some "sid") pendEnvs) (fun _ => 7000)

/-- Same slow server, budget 0. -/
def cexBudgetZero : PollParams String UError :=
  waitForLoggedInP (some 0) (sessionProbeOf (some "sid") pendEnvs) (fun _ => 7000)

/-- Slow server that reports failed from the second probe on, budget
5. -/
def cexSlowFail : PollParams String UError :=
  waitForLoggedInP (some 5) (sessionProbeOf (some "sid") failEnvs) (fun _ => 7000)

/-- Fast always-scanned runs for the witnesses: every round-trip takes
1 ms. -/
def wParamsTimeout : PollParams String UError :=
  waitForLoggedInP (some 3) (sessionProbeOf (some "sid") pendEnvs) (fun _ => 1)

def wParamsFail : PollParams String UError :=
  waitForLoggedInP (some 5) (sessionProbeOf (some "sid") failEnvs) (fun _ => 1)

def wParamsZero : PollParams String UError :=
  waitForLoggedInP (some 0) (sessionProbeOf (some "sid") pendEnvs) (fun _ => 1)

def wParamsClear : PollParams String UError :=
  waitForLoggedInP (some 1) (sessionProbeOf (some "sid") pendEnvs) (fun _ => 1)

/-- Oracle for the login-sequence witness: anonymous session, then the
credential exchange, then the authenticated session. -/
def oracleW : Nat → NetResult := fun i =>
  if i = 0 then okEnv (.str "S0")
  else if i = 1 then okEnv (.loginPayload "TOK" "99")
  else okEnv (.str "S2")

/-- Claim C1 counterexample: in the upload batch query an unrecognized
non-null per-identifier code (here "9") does not map to unknown - the
source's states[fileState] ?? fileState ?? 'unknown' returns the raw
code verbatim. -/
theorem fileStateOf_unrecognized_not_unknown :
    fileStateOf (some "9") = "9" ∧ fileStateOf (some "9") ≠ "unknown" ∧
    fileStateEntries [("f", some "9")] = [("f", "9")] :=
  ⟨rfl, by decide, rfl⟩

/-- Claim C1 as amended: upload codes map 1 to pending and 2 and 3 to
uploaded, a nullish code maps to unknown, and any other code is passed
through verbatim (hence kept distinct from the recognized states
whenever it differs from them); revocation codes map 1 to pending and 2
to revoked, and anything else - nullish or unrecognized - maps to
unknown. -/
theorem fileState_code_mapping :
    fileStateOf (some "1") = "pending" ∧
    fileStateOf (some "2") = "uploaded" ∧
    fileStateOf (some "3") = "uploaded" ∧
    fileStateOf none = "unknown" ∧
    (∀ c, c ≠ "1" → c ≠ "2" → c ≠ "3" → fileStateOf (some c) = c) ∧
    revokeStateOf (some "1") = "pending" ∧
    revokeStateOf (some "2") = "revoked" ∧
    revokeStateOf none = "unknown" ∧
    (∀ c, c ≠ "1" → c ≠ "2" → revokeStateOf (some c) = "unknown") := by
  refine ⟨rfl, rfl, rfl, rfl, ?_, rfl, rfl, rfl, ?_⟩
  · intro c h1 h2 h3
    simp [fileStateOf, h1, h2, h3]
  · intro c h1 h2
    simp [revokeStateOf, h1, h2]

/-- Witness for the amended C1 at concrete codes. -/
theorem fileState_code_mapping_inst :
    fileStateOf (some "7") = "7" ∧ revokeStateOf (some "7") = "unknown" :=
  ⟨(fileState_code_mapping).2.2.2.2.1 "7" (by decide) (by decide) (by decide),
   (fileState_code_mapping).2.2.2.2.2.2.2.2 "7" (by decide) (by decide)⟩

/-- Claim C8 counterexample: an envelope whose errorCode is present and
different from the zero sentinel, namely the empty string, does not
fail - the source's truthiness test lets it through and the data field
is returned. -/
theorem callApi_empty_errorCode_ok :
    callApiResult { errorCode := some "", errorMsg := "boom", data := .str "payload" }
        = .ok (.str "payload") ∧
    some "" ≠ (none : Option String) ∧ ("" : String) ≠ "0" :=
  ⟨rfl, by decide, by decide⟩

/-- Claim C8 as amended: the API call fails with the ApiError carrying
the envelope's code and message exactly when errorCode is present,
non-empty and different from the zero sentinel; otherwise (absent,
empty, or the zero sentinel) the data field is returned. -/
theorem callApi_error_characterization (e : Envelope) :
    ((∃ c, e.errorCode = some c ∧ c ≠ "" ∧ c ≠ "0") →
      callApiResult e = .error (.api (e.errorCode.getD "") e.errorMsg)) ∧
    ((e.errorCode = none ∨ e.errorCode = some "" ∨ e.errorCode = some "0") →
      callApiResult e = .ok e.data) ∧
    (∀ c msg, callApiResult e = .error (.api c msg) →
      e.errorCode = some c ∧ c ≠ "" ∧ c ≠ "0" ∧ msg = e.errorMsg) := by
  obtain ⟨ec, msg, d⟩ := e
  refine ⟨?_, ?_, ?_⟩
  · rintro ⟨c, hc, h1, h2⟩
    cases hc
    simp [callApiResult, h1, h2]
  · rintro (h | h | h) <;> cases h <;> simp [callApiResult]
  · intro c m h
    cases ec with
    | none => simp [callApiResult] at h
    | some c0 =>
      by_cases h1 : c0 = ""
      · simp [callApiResult, h1] at h
      · by_cases h2 : c0 = "0"
        · simp [callApiResult, h1, h2] at h
        · simp [callApiResult, h1, h2] at h
          obtain ⟨hc, hm⟩ := h
          subst hc
          subst hm
          exact ⟨rfl, h1, h2, rfl⟩

/-- Witness for the amended C8 at a concrete failing envelope. -/
theorem callApi_error_characterization_inst :
    callApiResult { errorCode := some "7", errorMsg := "m", data := .null }
      = .error (.api "7" "m") :=
  (callApi_error_characterization { errorCode := some "7", errorMsg := "m", data := .null }).1
    ⟨"7", rfl, by decide, by decide⟩

/-- Claim C3: on a fresh client (session identifier never acquired)
every authenticated operation fails with the no-session precondition
error and the execution state is returned untouched - in particular the
list of issued network calls stays empty and the oracle cursor does not
move, so no network call is performed. -/
theorem authenticated_ops_require_session (oracle : Nat → NetResult) :
    getTerminals oracle st0 = (st0, .error .noSessionId) ∧
    getSessionIdState oracle st0 = (st0, .error .noSessionId) ∧
    (∀ isImage fileSize terminalId off,
      getPresignedUrl isImage fileSize terminalId off oracle st0 = (st0, .error .noSessionId)) ∧
    (∀ fileUrl fileId subject fileSize terminalId,
      saveUploadedFile fileUrl fileId subject fileSize terminalId oracle st0
        = (st0, .error .noSessionId)) ∧
    (∀ terminalId fileIds,
      revokeFiles terminalId fileIds oracle st0 = (st0, .error .noSessionId)) ∧
    (∀ isImage fileLen fileSize terminalId subject putResult pollFuel,
      uploadFile isImage fileLen fileSize terminalId subject putResult pollFuel oracle st0
        = (st0, .error .noSessionId)) := by
  refine ⟨rfl, rfl, fun _ _ _ _ => rfl, fun _ _ _ _ _ => rfl, fun _ _ => rfl,
    fun _ _ _ _ _ _ _ => rfl⟩

/-- Claim C5: login with an empty email or an empty password fails with
the validation error before anything else happens: the execution state
- session identifier, stored user credential, issued calls, oracle
cursor - is returned exactly as it was. -/
theorem login_empty_credentials (email pwd : String) (h : email = "" ∨ pwd = "")
    (oracle : Nat → NetResult) (st : OpSt) :
    login email pwd oracle st = (st, .error .credentialsRequired) := by
  simp [login, h]

/-- Witness for C5 on both argument positions. -/
theorem login_empty_credentials_inst :
    login "" "x" oracleW st0 = (st0, .error .credentialsRequired) ∧
    login "x" "" oracleW st0 = (st0, .error .credentialsRequired) :=
  ⟨login_empty_credentials "" "x" (Or.inl rfl) oracleW st0,
   login_empty_credentials "x" "" (Or.inr rfl) oracleW st0⟩

/-- Claim C9: the PUT of the file body to the presigned URL has its
response ignored - uploadFile run against any HTTP status of the PUT
response, error status included, is the very same run as against a 200,
proceeding to saveUploadedFile and the confirmation poll. -/
theorem uploadFile_put_response_ignored (isImage : Bool) (fileLen : Nat)
    (fileSize : Option Nat) (terminalId : String) (subject : Option String) (status : Nat)
    (pollFuel : Nat) (oracle : Nat → NetResult) (st : OpSt) :
    uploadFile isImage fileLen fileSize terminalId subject (.ok status) pollFuel oracle st =
    uploadFile isImage fileLen fileSize terminalId subject (.ok 200) pollFuel oracle st := rfl

/-- Claim C4: starting from a fresh client with valid (non-empty)
credentials, once the anonymous acquisition has succeeded (yielding a
truthy identifier), login issues exactly one anonymous session
acquisition, one credential exchange and - when the exchange succeeds
with a truthy user token - one authenticated session acquisition
carrying that token, in that order; when the exchange fails, the run
stops with the exchange's error after exactly the first two calls, the
stored session identifier is still the anonymous one and no user
credential is stored. -/
theorem login_call_sequence (email pwd s0 : String) (oracle : Nat → NetResult)
    (he : email ≠ "") (hp : pwd ≠ "")
    (h0 : netResult (oracle 0) = .ok (.str s0)) (hs : s0 ≠ "") :
    (∀ tok exp, netResult (oracle 1) = .ok (.loginPayload tok exp) → tok ≠ "" →
      (login email pwd oracle st0).1.calls
        = [.sessionIdAnon, .deviceLogin email pwd, .sessionIdAuth tok]) ∧
    (∀ e2, netResult (oracle 1) = .error e2 →
      login email pwd oracle st0 =
        ({ client := { sessionId := some s0, user := none }
           calls := [.sessionIdAnon, .deviceLogin email pwd]
           idx := 2 }, .error e2)) := by
  constructor
  · intro tok exp h1 ht
    simp [login, he, hp, _getSessionId, _login, callApiStep, st0, h0, h1, sessionFalsy, hs, ht,
      RData.asStr, RData.asLogin]
    cases h2 : netResult (oracle 2) with
    | error e => simp [h2]
    | ok d => simp [h2]
  · intro e2 h1
    simp [login, he, hp, _getSessionId, _login, callApiStep, st0, h0, h1, sessionFalsy, hs,
      RData.asStr, RData.asLogin]

/-- Witness for C4: the concrete three-call sequence of a successful
login. -/
theorem login_call_sequence_inst :
    (login "user@example.com" "pw" oracleW st0).1.calls
      = [.sessionIdAnon, .deviceLogin "user@example.com" "pw", .sessionIdAuth "TOK"] :=
  (login_call_sequence "user@example.com" "pw" "S0" oracleW (by decide) (by decide) rfl
    (by decide)).1 "TOK" "99" rfl (by decide)

/-- Unfolding of one engine step inside a run. -/
theorem runAux_succ (p : PollParams σ ε) (st : EngineState σ ε) (t d : Nat) :
    runAux p st t (d + 1) = runAux p (stepEngine p t st) (t + 1) d := rfl

/-- Runs compose: processing a+b times is processing a and then b. -/
theorem runAux_add (p : PollParams σ ε) (st : EngineState σ ε) (t a b : Nat) :
    runAux p st t (a + b) = runAux p (runAux p st t a) (t + a) b := by
  induction a generalizing st t with
  | zero => rw [Nat.zero_add, Nat.add_zero]; rfl
  | succ n ih =>
    have h1 : n + 1 + b = n + b + 1 := by omega
    have h2 : t + 1 + n = t + (n + 1) := by omega
    rw [h1, runAux_succ, ih, h2, runAux_succ]

/-- A state every step of a stretch leaves unchanged is the value of
the whole stretch. -/
theorem runAux_const (p : PollParams σ ε) (st : EngineState σ ε) (t d : Nat)
    (h : ∀ u, t ≤ u → u < t + d → stepEngine p u st = st) : runAux p st t d = st := by
  induction d generalizing t with
  | zero => rfl
  | succ n ih =>
    rw [runAux_succ, h t (Nat.le_refl t) (by omega)]
    exact ih (t + 1) (fun u hu1 hu2 => h u (by omega) (by omega))

theorem applyBody_attempts (p : PollParams σ ε) (st : EngineState σ ε) (i : Nat) :
    (applyBody p st i).attempts = st.attempts := by
  unfold applyBody
  cases bodyAct p st.attempts i <;> rfl

theorem applyBody_inflight (p : PollParams σ ε) (st : EngineState σ ε) (i : Nat) :
    (applyBody p st i).inflight = st.inflight := by
  unfold applyBody
  cases bodyAct p st.attempts i <;> rfl

theorem applyBody_cleared_mono (p : PollParams σ ε) (st : EngineState σ ε) (i : Nat)
    (h : st.cleared = true) : (applyBody p st i).cleared = true := by
  unfold applyBody
  cases bodyAct p st.attempts i <;> simp [h]

theorem applyBody_settled_mono (p : PollParams σ ε) (st : EngineState σ ε) (i : Nat)
    (r : PollResult σ ε) (h : st.settled = some r) : (applyBody p st i).settled = some r := by
  unfold applyBody
  cases bodyAct p st.attempts i with
  | none => exact h
  | some q => simp [h]

theorem foldBody_attempts (p : PollParams σ ε) (l : List (Nat × Nat)) (st : EngineState σ ε) :
    (l.foldl (fun s c => applyBody p s c.2) st).attempts = st.attempts := by
  induction l generalizing st with
  | nil => rfl
  | cons c l ih => rw [List.foldl_cons, ih, applyBody_attempts]

theorem foldBody_cleared_mono (p : PollParams σ ε) (l : List (Nat × Nat))
    (st : EngineState σ ε) (h : st.cleared = true) :
    (l.foldl (fun s c => applyBody p s c.2) st).cleared = true := by
  induction l generalizing st with
  | nil => exact h
  | cons c l ih => rw [List.foldl_cons]; exact ih _ (applyBody_cleared_mono p st c.2 h)

theorem foldBody_settled_mono (p : PollParams σ ε) (l : List (Nat × Nat))
    (st : EngineState σ ε) (r : PollResult σ ε) (h : st.settled = some r) :
    (l.foldl (fun s c => applyBody p s c.2) st).settled = some r := by
  induction l generalizing st with
  | nil => exact h
  | cons c l ih => rw [List.foldl_cons]; exact ih _ (applyBody_settled_mono p st c.2 r h)

theorem processCompletions_attempts (p : PollParams σ ε) (t : Nat) (st : EngineState σ ε) :
    (processCompletions p t st).attempts = st.attempts := by
  unfold processCompletions
  rw [foldBody_attempts]

theorem processCompletions_cleared_mono (p : PollParams σ ε) (t : Nat) (st : EngineState σ ε)
    (h : st.cleared = true) : (processCompletions p t st).cleared = true := by
  unfold processCompletions
  exact foldBody_cleared_mono p _ _ h

theorem processCompletions_settled_mono (p : PollParams σ ε) (t : Nat) (st : EngineState σ ε)
    (r : PollResult σ ε) (h : st.settled = some r) :
    (processCompletions p t st).settled = some r := by
  unfold processCompletions
  exact foldBody_settled_mono p _ _ r h

theorem processCompletions_empty (p : PollParams σ ε) (t : Nat) (st : EngineState σ ε)
    (h : st.inflight = []) : processCompletions p t st = st := by
  obtain ⟨a, fl, c, s⟩ := st
  change fl = [] at h
  subst h
  rfl

/-- The attempt counter never decreases in one step. -/
theorem stepEngine_attempts_ge (p : PollParams σ ε) (t : Nat) (st : EngineState σ ε) :
    st.attempts ≤ (stepEngine p t st).attempts := by
  unfold stepEngine
  rw [processCompletions_attempts]
  split
  · simp [invokeProbe]
  · exact Nat.le_refl _

/-- Once the interval is cleared it stays cleared and the attempt
counter never moves again: completions of probes already in flight may
still run but the tick is disabled. -/
theorem stepEngine_cleared_frozen (p : PollParams σ ε) (t : Nat) (st : EngineState σ ε)
    (h : st.cleared = true) :
    (stepEngine p t st).cleared = true ∧ (stepEngine p t st).attempts = st.attempts := by
  unfold stepEngine
  rw [if_neg (by simp [h])]
  exact ⟨processCompletions_cleared_mono p t st h, processCompletions_attempts p t st⟩

/-- The settled value of the promise never changes once set. -/
theorem stepEngine_settled_mono (p : PollParams σ ε) (t : Nat) (st : EngineState σ ε)
    (r : PollResult σ ε) (h : st.settled = some r) : (stepEngine p t st).settled = some r := by
  unfold stepEngine
  split
  · exact processCompletions_settled_mono p t _ r (by simpa [invokeProbe] using h)
  · exact processCompletions_settled_mono p t st r h

theorem runAux_attempts_ge (p : PollParams σ ε) (st : EngineState σ ε) (t d : Nat) :
    st.attempts ≤ (runAux p st t d).attempts := by
  induction d generalizing st t with
  | zero => exact Nat.le_refl _
  | succ n ih =>
    rw [runAux_succ]
    exact Nat.le_trans (stepEngine_attempts_ge p t st) (ih _ _)

theorem runAux_cleared_frozen (p : PollParams σ ε) (st : EngineState σ ε) (t d : Nat)
    (h : st.cleared = true) :
    (runAux p st t d).cleared = true ∧ (runAux p st t d).attempts = st.attempts := by
  induction d generalizing st t with
  | zero => exact ⟨h, rfl⟩
  | succ n ih =>
    rw [runAux_succ]
    obtain ⟨h1, h2⟩ := stepEngine_cleared_frozen p t st h
    obtain ⟨h3, h4⟩ := ih (stepEngine p t st) (t + 1) h1
    exact ⟨h3, by rw [h4, h2]⟩

theorem runAux_settled_mono (p : PollParams σ ε) (st : EngineState σ ε) (t d : Nat)
    (r : PollResult σ ε) (h : st.settled = some r) : (runAux p st t d).settled = some r := by
  induction d generalizing st t with
  | zero => exact h
  | succ n ih =>
    rw [runAux_succ]
    exact ih _ _ (stepEngine_settled_mono p t st r h)

/-- A step at a time where the tick is disabled and nothing is due
leaves the state unchanged. -/
theorem stepEngine_quiet (p : PollParams σ ε) (t : Nat) (st : EngineState σ ε)
    (htick : ¬ (t % p.interval = 0 ∧ st.cleared = false))
    (hdue : ∀ c, c ∈ st.inflight → t < c.1) :
    stepEngine p t st = st := by
  unfold stepEngine
  rw [if_neg htick]
  unfold processCompletions
  have hfil1 : st.inflight.filter (fun c => decide (c.1 ≤ t)) = [] := by
    apply List.filter_eq_nil_iff.mpr
    intro c hc
    simpa using Nat.not_le.mpr (hdue c hc)
  have hfil2 : st.inflight.filter (fun c => decide (t < c.1)) = st.inflight := by
    apply List.filter_eq_self.mpr
    intro c hc
    simpa using hdue c hc
  rw [hfil1, hfil2, List.foldl_nil]

theorem stepEngine_done (p : PollParams σ ε) (u n : Nat) (r : PollResult σ ε) :
    stepEngine p u (doneSt n r) = doneSt n r :=
  stepEngine_quiet p u (doneSt n r) (by simp [doneSt]) (by simp [doneSt])

theorem stepEngine_idle_quiet (p : PollParams σ ε) (m u : Nat)
    (h : ¬ u % p.interval = 0) : stepEngine p u (idleSt m) = idleSt m :=
  stepEngine_quiet p u (idleSt m) (fun hc => h hc.1) (by simp [idleSt])

theorem stepEngine_wait_quiet (p : PollParams σ ε) (m u c i : Nat)
    (h1 : ¬ u % p.interval = 0) (h2 : u < c) :
    stepEngine p u { attempts := m, inflight := [(c, i)], cleared := false, settled := none }
      = { attempts := m, inflight := [(c, i)], cleared := false, settled := none } :=
  stepEngine_quiet p u _ (fun hc => h1 hc.1) (by simpa using h2)

/-- A time strictly between two consecutive tick times is no tick
time. -/
theorem mid_mod_ne_zero (I k u : Nat) (h1 : k * I < u) (h2 : u < (k + 1) * I) :
    ¬ u % I = 0 := by
  have hmul : (k + 1) * I = k * I + I := by ring
  have hu : u = (u - k * I) + k * I := by omega
  have hrI : u - k * I < I := by omega
  have hrpos : 0 < u - k * I := by omega
  rw [hu, Nat.add_mul_mod_self_right, Nat.mod_eq_of_lt hrI]
  omega

/-- The tick at time k * interval invokes probe k from the idle state
and its completion is scheduled after the probe's latency. -/
theorem step_invoke_idle (p : PollParams σ ε) (k : Nat) (hL : 1 ≤ p.latency k) :
    stepEngine p (k * p.interval) (idleSt k) =
      { attempts := k + 1, inflight := [(k * p.interval + p.latency k, k)],
        cleared := false, settled := none } := by
  unfold stepEngine
  rw [if_pos ⟨Nat.mul_mod_left k p.interval, rfl⟩]
  show processCompletions p (k * p.interval)
      { attempts := k + 1, inflight := [(k * p.interval + p.latency k, k)],
        cleared := false, settled := none } = _
  unfold processCompletions
  have hn : ¬ (k * p.interval + p.latency k ≤ k * p.interval) := by omega
  have hl : k * p.interval < k * p.interval + p.latency k := by omega
  simp [hn, hl]

/-- At completion time the waiting probe's body runs from the idle
shape: either nothing terminal and the engine is idle again, or the
interval is cleared and the promise settles. -/
theorem step_complete_single (p : PollParams σ ε) (k : Nat)
    (hL1 : 1 ≤ p.latency k) (hL2 : p.latency k < p.interval) :
    stepEngine p (k * p.interval + p.latency k)
      { attempts := k + 1, inflight := [(k * p.interval + p.latency k, k)],
        cleared := false, settled := none } =
      (match bodyAct p (k + 1) k with
       | none => idleSt (k + 1)
       | some r => doneSt (k + 1) r) := by
  unfold stepEngine
  rw [if_neg ?htick]
  case htick =>
    intro hc
    apply mid_mod_ne_zero p.interval k (k * p.interval + p.latency k) (by omega) ?inr hc.1
    case inr =>
      have hmul : (k + 1) * p.interval = k * p.interval + p.interval := by ring
      omega
  unfold processCompletions
  simp only [List.filter_cons, List.filter_nil, decide_eq_true_eq, Nat.le_refl, if_true,
    Nat.lt_irrefl, decide_False, if_false, List.foldl_cons, List.foldl_nil]
  show applyBody p (idleSt (k + 1)) k = _
  simp only [applyBody, idleSt]
  cases bodyAct p (k + 1) k with
  | none => rfl
  | some r => rfl

/-- In the serialized regime, the latency+1 steps from the tick at
k * interval cover exactly one probe: invocation, waiting, and the
completion body. -/
theorem seg_partial (p : PollParams σ ε) (k : Nat)
    (hL1 : 1 ≤ p.latency k) (hL2 : p.latency k < p.interval) :
    runAux p (idleSt k) (k * p.interval) (p.latency k + 1) =
      (match bodyAct p (k + 1) k with
       | none => idleSt (k + 1)
       | some r => doneSt (k + 1) r) := by
  have hmul : (k + 1) * p.interval = k * p.interval + p.interval := by ring
  have h1 : runAux p (idleSt k) (k * p.interval) 1
      = { attempts := k + 1, inflight := [(k * p.interval + p.latency k, k)],
          cleared := false, settled := none } := step_invoke_idle p k hL1
  have h2 : runAux p
        { attempts := k + 1, inflight := [(k * p.interval + p.latency k, k)],
          cleared := false, settled := none }
        (k * p.interval + 1) (p.latency k - 1)
      = { attempts := k + 1, inflight := [(k * p.interval + p.latency k, k)],
          cleared := false, settled := none } := by
    apply runAux_const
    intro u hu1 hu2
    apply stepEngine_wait_quiet
    · exact mid_mod_ne_zero p.interval k u (by omega) (by omega)
    · omega
  have hsplit : p.latency k + 1 = 1 + ((p.latency k - 1) + 1) := by omega
  rw [hsplit, runAux_add, h1, runAux_add, h2]
  have harith : k * p.interval + 1 + (p.latency k - 1) = k * p.interval + p.latency k := by
    omega
  rw [harith]
  exact step_complete_single p k hL1 hL2

/-- A full interval segment in the serialized regime, when the probe's
body takes no terminal action: the engine returns to idle, one attempt
richer. -/
theorem seg_full (p : PollParams σ ε) (k : Nat)
    (hL1 : 1 ≤ p.latency k) (hL2 : p.latency k < p.interval)
    (hnone : bodyAct p (k + 1) k = none) :
    runAux p (idleSt k) (k * p.interval) p.interval = idleSt (k + 1) := by
  have hmul : (k + 1) * p.interval = k * p.interval + p.interval := by ring
  have hsplit : p.interval = (p.latency k + 1) + (p.interval - p.latency k - 1) := by omega
  nth_rewrite 2 [hsplit]
  rw [runAux_add, seg_partial p k hL1 hL2, hnone]
  show runAux p (idleSt (k + 1)) (k * p.interval + (p.latency k + 1))
      (p.interval - p.latency k - 1) = idleSt (k + 1)
  apply runAux_const
  intro u hu1 hu2
  exact stepEngine_idle_quiet p (k + 1) u (mid_mod_ne_zero p.interval k u (by omega) (by omega))

/-- In the serialized regime, as long as no probe body has taken a
terminal action, the engine is idle again at every tick time, with one
attempt per elapsed interval. -/
theorem seg_reach (p : PollParams σ ε)
    (hser : ∀ i, 1 ≤ p.latency i ∧ p.latency i < p.interval) (k : Nat)
    (hnone : ∀ j, j < k → bodyAct p (j + 1) j = none) :
    runAux p engineInit 0 (k * p.interval) = idleSt k := by
  induction k with
  | zero => rw [Nat.zero_mul]; rfl
  | succ n ih =>
    have hstep : (n + 1) * p.interval = n * p.interval + p.interval := by ring
    rw [hstep, runAux_add, ih (fun j hj => hnone j (by omega)), Nat.zero_add]
    exact seg_full p n (hser n).1 (hser n).2 (hnone n (by omega))

/-- In the serialized regime, the first probe whose body takes a
terminal action settles the run: from its completion time onward the
engine is exactly the settled state with k+1 attempts. -/
theorem run_stops (p : PollParams σ ε)
    (hser : ∀ i, 1 ≤ p.latency i ∧ p.latency i < p.interval) (k : Nat) (r : PollResult σ ε)
    (hnone : ∀ j, j < k → bodyAct p (j + 1) j = none)
    (hstop : bodyAct p (k + 1) k = some r) (T : Nat)
    (hT : k * p.interval + p.latency k ≤ T) :
    runEngine p T = doneSt (k + 1) r := by
  unfold runEngine
  have hsplit : T + 1
      = k * p.interval + ((p.latency k + 1) + (T - k * p.interval - p.latency k)) := by omega
  rw [hsplit, runAux_add, Nat.zero_add, seg_reach p hser k hnone, runAux_add,
    seg_partial p k (hser k).1 (hser k).2, hstop]
  show runAux p (doneSt (k + 1) r) (k * p.interval + (p.latency k + 1))
      (T - k * p.interval - p.latency k) = doneSt (k + 1) r
  apply runAux_const
  intro u hu1 hu2
  exact stepEngine_done p u (k + 1) r

/-- A later run state continues an earlier one. -/
theorem runEngine_decomp (p : PollParams σ ε) (T1 T2 : Nat) (h : T1 ≤ T2) :
    runEngine p T2 = runAux p (runEngine p T1) (0 + (T1 + 1)) (T2 - T1) := by
  unfold runEngine
  rw [show T2 + 1 = (T1 + 1) + (T2 - T1) by omega]
  exact runAux_add p engineInit 0 (T1 + 1) (T2 - T1)

/-- The attempt counter of a run is monotone in time. -/
theorem runEngine_attempts_mono (p : PollParams σ ε) (T1 T2 : Nat) (h : T1 ≤ T2) :
    (runEngine p T1).attempts ≤ (runEngine p T2).attempts := by
  have h2 := runAux_attempts_ge p (runEngine p T1) (0 + (T1 + 1)) (T2 - T1)
  rw [← runEngine_decomp p T1 T2 h] at h2
  exact h2

/-- In the serialized regime, a run that stops at probe k never starts
more than k+1 probes at any time. -/
theorem run_stop_attempts_le (p : PollParams σ ε)
    (hser : ∀ i, 1 ≤ p.latency i ∧ p.latency i < p.interval) (k : Nat) (r : PollResult σ ε)
    (hnone : ∀ j, j < k → bodyAct p (j + 1) j = none)
    (hstop : bodyAct p (k + 1) k = some r) (T : Nat) :
    (runEngine p T).attempts ≤ k + 1 := by
  rcases le_or_lt (k * p.interval + p.latency k) T with hT | hT
  · rw [run_stops p hser k r hnone hstop T hT]
    exact Nat.le_refl _
  · have hmono := runEngine_attempts_mono p T (k * p.interval + p.latency k) (by omega)
    rw [run_stops p hser k r hnone hstop _ (Nat.le_refl _)] at hmono
    exact hmono

/-- No settlement can exist while the attempt counter is zero: the
promise only settles inside a probe's completion body, and a completion
presupposes an invocation. -/
theorem stepEngine_zero_inv (p : PollParams σ ε) (t : Nat) (st : EngineState σ ε)
    (h : st.attempts = 0 → st.inflight = [] ∧ st.cleared = false ∧ st.settled = none)
    (h0 : (stepEngine p t st).attempts = 0) :
    (stepEngine p t st).inflight = [] ∧ (stepEngine p t st).cleared = false ∧
      (stepEngine p t st).settled = none := by
  unfold stepEngine at h0 ⊢
  by_cases htick : t % p.interval = 0 ∧ st.cleared = false
  · rw [if_pos htick] at h0
    rw [processCompletions_attempts] at h0
    simp [invokeProbe] at h0
  · rw [if_neg htick] at h0 ⊢
    rw [processCompletions_attempts] at h0
    obtain ⟨h1, h2, h3⟩ := h h0
    rw [processCompletions_empty p t st h1]
    exact ⟨h1, h2, h3⟩

theorem runAux_zero_inv (p : PollParams σ ε) (st : EngineState σ ε) (t d : Nat)
    (h : st.attempts = 0 → st.inflight = [] ∧ st.cleared = false ∧ st.settled = none)
    (h0 : (runAux p st t d).attempts = 0) :
    (runAux p st t d).inflight = [] ∧ (runAux p st t d).cleared = false ∧
      (runAux p st t d).settled = none := by
  induction d generalizing st t with
  | zero => exact h h0
  | succ n ih =>
    rw [runAux_succ] at h0 ⊢
    exact ih (stepEngine p t st) (t + 1) (fun ha => stepEngine_zero_inv p t st h ha) h0

/-- Advance a run by one computed step followed by a quiet stretch. -/
theorem runAux_hop (p : PollParams σ ε) (s1 s2 : EngineState σ ε) (t q rest : Nat)
    (hstep : stepEngine p t s1 = s2)
    (hquiet : ∀ u, t + 1 ≤ u → u < t + 1 + q → stepEngine p u s2 = s2) :
    runAux p s1 t (1 + (q + rest)) = runAux p s2 (t + 1 + q) rest := by
  have h1 : runAux p s1 t 1 = s2 := hstep
  rw [runAux_add, h1, runAux_add, runAux_const p s2 (t + 1) q hquiet]

/-- With every round-trip taking 7000 ms against the 3000 ms interval,
the waitForLoggedIn loop has started probe 0 at time 0 and probe 1 at
time 3000 - while probe 0 is still in flight - whatever the budget and
whatever the server will answer. -/
theorem slow_prefix_3000 (m : Option Int) (envs : Nat → NetResult) :
    runAux (waitForLoggedInP m (sessionProbeOf (some "sid") envs) (fun _ => 7000))
      engineInit 0 3000
      = { attempts := 1, inflight := [(7000, 0)], cleared := false, settled := none } := by
  have hq : ∀ u, 0 + 1 ≤ u → u < 0 + 1 + 2999 →
      stepEngine (waitForLoggedInP m (sessionProbeOf (some "sid") envs) (fun _ => 7000)) u
        { attempts := 1, inflight := [(7000, 0)], cleared := false, settled := none }
      = { attempts := 1, inflight := [(7000, 0)], cleared := false, settled := none } := by
    intro u hu1 hu2
    apply stepEngine_quiet
    · intro hc
      have hmod : u % 3000 = 0 := hc.1
      omega
    · intro c hc
      cases hc with
      | head =>
        show u < 7000
        omega
      | tail _ hc2 => cases hc2
  exact runAux_hop (waitForLoggedInP m (sessionProbeOf (some "sid") envs) (fun _ => 7000))
    engineInit
    { attempts := 1, inflight := [(7000, 0)], cleared := false, settled := none }
    0 2999 0 rfl hq

/-- Same slow regime, three interval ticks in: probes 0, 1 and 2 have
been started, none observed. -/
theorem slow_prefix_7000 (m : Option Int) (envs : Nat → NetResult) :
    runAux (waitForLoggedInP m (sessionProbeOf (some "sid") envs) (fun _ => 7000))
      engineInit 0 7000
      = { attempts := 3, inflight := [(7000, 0), (10000, 1), (13000, 2)],
          cleared := false, settled := none } := by
  have hq1 : ∀ u, 3000 + 1 ≤ u → u < 3000 + 1 + 2999 →
      stepEngine (waitForLoggedInP m (sessionProbeOf (some "sid") envs) (fun _ => 7000)) u
        { attempts := 2, inflight := [(7000, 0), (10000, 1)], cleared := false, settled := none }
      = { attempts := 2, inflight := [(7000, 0), (10000, 1)],
          cleared := false, settled := none } := by
    intro u hu1 hu2
    apply stepEngine_quiet
    · intro hc
      have hmod : u % 3000 = 0 := hc.1
      omega
    · intro c hc
      cases hc with
      | head =>
        show u < 7000
        omega
      | tail _ hc2 =>
        cases hc2 with
        | head =>
          show u < 10000
          omega
        | tail _ hc3 => cases hc3
  have hq2 : ∀ u, 6000 + 1 ≤ u → u < 6000 + 1 + 999 →
      stepEngine (waitForLoggedInP m (sessionProbeOf (some "sid") envs) (fun _ => 7000)) u
        { attempts := 3, inflight := [(7000, 0), (10000, 1), (13000, 2)],
          cleared := false, settled := none }
      = { attempts := 3, inflight := [(7000, 0), (10000, 1), (13000, 2)],
          cleared := false, settled := none } := by
    intro u hu1 hu2
    apply stepEngine_quiet
    · intro hc
      have hmod : u % 3000 = 0 := hc.1
      omega
    · intro c hc
      cases hc with
      | head =>
        show u < 7000
        omega
      | tail _ hc2 =>
        cases hc2 with
        | head =>
          show u < 10000
          omega
        | tail _ hc3 =>
          cases hc3 with
          | head =>
            show u < 13000
            omega
          | tail _ hc4 => cases hc4
  have hs1 : stepEngine (waitForLoggedInP m (sessionProbeOf (some "sid") envs)
        (fun _ => 7000)) 3000
      { attempts := 1, inflight := [(7000, 0)], cleared := false, settled := none }
      = { attempts := 2, inflight := [(7000, 0), (10000, 1)],
          cleared := false, settled := none } := by
    unfold stepEngine
    rw [show (waitForLoggedInP m (sessionProbeOf (some "sid") envs)
        (fun _ => 7000)).interval = 3000 from rfl]
    rfl
  have hs2 : stepEngine (waitForLoggedInP m (sessionProbeOf (some "sid") envs)
        (fun _ => 7000)) 6000
      { attempts := 2, inflight := [(7000, 0), (10000, 1)], cleared := false, settled := none }
      = { attempts := 3, inflight := [(7000, 0), (10000, 1), (13000, 2)],
          cleared := false, settled := none } := by
    unfold stepEngine
    rw [show (waitForLoggedInP m (sessionProbeOf (some "sid") envs)
        (fun _ => 7000)).interval = 3000 from rfl]
    rfl
  have hop1 := runAux_hop
    (waitForLoggedInP m (sessionProbeOf (some "sid") envs) (fun _ => 7000))
    { attempts := 1, inflight := [(7000, 0)], cleared := false, settled := none }
    { attempts := 2, inflight := [(7000, 0), (10000, 1)], cleared := false, settled := none }
    3000 2999 (1 + (999 + 0)) hs1 hq1
  have hop2 := runAux_hop
    (waitForLoggedInP m (sessionProbeOf (some "sid") envs) (fun _ => 7000))
    { attempts := 2, inflight := [(7000, 0), (10000, 1)], cleared := false, settled := none }
    { attempts := 3, inflight := [(7000, 0), (10000, 1), (13000, 2)],
      cleared := false, settled := none }
    6000 999 0 hs2 hq2
  have h2 : runAux (waitForLoggedInP m (sessionProbeOf (some "sid") envs) (fun _ => 7000))
      { attempts := 1, inflight := [(7000, 0)], cleared := false, settled := none } 3000 4000
      = { attempts := 3, inflight := [(7000, 0), (10000, 1), (13000, 2)],
          cleared := false, settled := none } :=
    hop1.trans hop2
  have hadd := runAux_add
    (waitForLoggedInP m (sessionProbeOf (some "sid") envs) (fun _ => 7000))
    engineInit 0 3000 4000
  rw [slow_prefix_3000 m envs] at hadd
  exact hadd.trans h2

/-- Claim C2 counterexample: the waitForLoggedIn run with the default
budget against round-trips of 7000 ms is not serialized - at time 3000
the interval tick invokes probe 1 while probe 0 (due to complete at
7000) is still outstanding. -/
theorem polling_not_serialized : ¬ SerializedProbes cexSlowLogin := by
  intro h
  have hpre : runAux cexSlowLogin engineInit 0 3000
      = { attempts := 1, inflight := [(7000, 0)], cleared := false, settled := none } :=
    slow_prefix_3000 (some 5) pendEnvs
  have hinv : probeInvokedAt cexSlowLogin 3000 := by
    unfold probeInvokedAt
    rw [hpre]
    decide
  have hout : probeOutstandingAt cexSlowLogin 3000 := by
    unfold probeOutstandingAt
    rw [hpre]
    decide
  exact h 3000 hinv hout

/-- Claim C2 as amended: ticks are scheduled from the fixed interval
regardless of in-flight probes, so probes are not serialized when a
round-trip outlasts the interval; what does hold is the cancellation
half - once the interval has been cleared (which every settlement
does), it stays cleared, the attempt counter never moves again (no
further probe fires), and the settled value never changes. -/
theorem polling_no_probe_after_clear (p : PollParams σ ε) (T1 T2 : Nat) (h : T1 ≤ T2)
    (hc : (runEngine p T1).cleared = true) :
    (runEngine p T2).cleared = true ∧
    (runEngine p T2).attempts = (runEngine p T1).attempts ∧
    (∀ r, (runEngine p T1).settled = some r → (runEngine p T2).settled = some r) := by
  have hdec := runEngine_decomp p T1 T2 h
  obtain ⟨h1, h2⟩ := runAux_cleared_frozen p (runEngine p T1) (0 + (T1 + 1)) (T2 - T1) hc
  refine ⟨by rw [hdec]; exact h1, by rw [hdec]; exact h2, ?_⟩
  intro r hr
  rw [hdec]
  exact runAux_settled_mono p (runEngine p T1) (0 + (T1 + 1)) (T2 - T1) r hr

/-- Witness for the amended C2: a run settled at time 1 never bumps its
attempt counter again. -/
theorem polling_no_probe_after_clear_inst :
    (runEngine wParamsClear 9000).cleared = true ∧
    (runEngine wParamsClear 9000).attempts = (runEngine wParamsClear 1).attempts :=
  ⟨(polling_no_probe_after_clear wParamsClear 1 9000 (by omega) (by decide)).1,
   (polling_no_probe_after_clear wParamsClear 1 9000 (by omega) (by decide)).2.1⟩

/-- Claim C6 counterexample: with budget 1 and an always-scanned server
whose round-trips take 7000 ms, the run does fail with the polling
timeout, but three probes have been issued by then - a second (and
third) probe occurs even though maxAttempts is 1. -/
theorem poll_timeout_extra_probe :
    cexBudgetOne.max = some 1 ∧
    (∀ i, cexBudgetOne.probe i = .ok "scanned") ∧
    (runEngine cexBudgetOne 7000).settled = some PollResult.pollTimeout ∧
    (runEngine cexBudgetOne 7000).attempts = 3 := by
  have hpre : runAux cexBudgetOne engineInit 0 7000
      = { attempts := 3, inflight := [(7000, 0), (10000, 1), (13000, 2)],
          cleared := false, settled := none } := slow_prefix_7000 (some 1) pendEnvs
  have hadd := runAux_add cexBudgetOne engineInit 0 7000 1
  rw [hpre] at hadd
  have hrun : runEngine cexBudgetOne 7000
      = { attempts := 3, inflight := [(10000, 1), (13000, 2)],
          cleared := true, settled := some PollResult.pollTimeout } := by
    refine hadd.trans ?_
    decide
  refine ⟨rfl, fun i => rfl, ?_, ?_⟩
  · rw [hrun]
  · rw [hrun]

/-- Claim C6 as amended: in the serialized regime - every probe
round-trip completes strictly within the 3000 ms interval - a polling
run with finite budget n of at least 1 whose observed states never
satisfy the success or failure predicate settles with the polling
timeout at the n-th probe's completion, exactly n probes are issued,
and no (n+1)-th probe ever occurs; when a round-trip outlasts the
interval, further ticks may issue extra probes before the first result
is observed (see the counterexample). -/
theorem poll_timeout_exact_attempts (p : PollParams σ ε) (n : Nat)
    (hser : Serial p) (hmax : p.max = some (n : Int)) (hn : 1 ≤ n)
    (hprobe : ∀ i, ∃ s, p.probe i = .ok s ∧ p.isSuccess s = false ∧ p.isFailure s = false) :
    (∀ T, (n - 1) * p.interval + p.latency (n - 1) ≤ T →
      (runEngine p T).settled = some PollResult.pollTimeout ∧ (runEngine p T).attempts = n) ∧
    (∀ T, (runEngine p T).attempts ≤ n) := by
  have hnone : ∀ j, j < n - 1 → bodyAct p (j + 1) j = none := by
    intro j hj
    obtain ⟨s, hs, h1, h2⟩ := hprobe j
    simp [bodyAct, hs, h1, h2, maxHit, hmax]
    omega
  have hstop : bodyAct p (n - 1 + 1) (n - 1) = some PollResult.pollTimeout := by
    obtain ⟨s, hs, h1, h2⟩ := hprobe (n - 1)
    simp [bodyAct, hs, h1, h2, maxHit, hmax]
    omega
  constructor
  · intro T hT
    have hr := run_stops p hser.2 (n - 1) PollResult.pollTimeout hnone hstop T hT
    rw [hr]
    refine ⟨rfl, ?_⟩
    show n - 1 + 1 = n
    omega
  · intro T
    have hb := run_stop_attempts_le p hser.2 (n - 1) PollResult.pollTimeout hnone hstop T
    omega

/-- Witness for the amended C6: budget 3, always-scanned, 1 ms
round-trips - the timeout lands at the third completion with exactly
three attempts. -/
theorem poll_timeout_exact_attempts_inst :
    (runEngine wParamsTimeout 6001).settled = some PollResult.pollTimeout ∧
    (runEngine wParamsTimeout 6001).attempts = 3 :=
  (poll_timeout_exact_attempts wParamsTimeout 3
    ⟨by rw [show wParamsTimeout.interval = 3000 from rfl]; omega,
     fun i => ⟨Nat.le_refl 1, by rw [show wParamsTimeout.latency i = 1 from rfl,
       show wParamsTimeout.interval = 3000 from rfl]; omega⟩⟩
    rfl (by omega) (fun i => ⟨"scanned", rfl, rfl, rfl⟩)).1 6001
    (by rw [show wParamsTimeout.interval = 3000 from rfl,
      show wParamsTimeout.latency (3 - 1) = 1 from rfl])

/-- Claim C7 counterexample: against 7000 ms round-trips, a probe
sequence that reports failed from the second call on still rejects with
the failure state at the second probe's completion (time 10000), but by
then four probes have been issued - a third and a fourth probe occur in
a run whose failure is observed on the second call, and they were
issued while nothing was settled. -/
theorem login_poll_failure_extra_probe :
    cexSlowFail.probe 0 = .ok "scanned" ∧
    cexSlowFail.probe 1 = .ok "failed" ∧
    cexSlowFail.max = some 5 ∧
    ((runEngine cexSlowFail 9000).settled = none ∧
      (runEngine cexSlowFail 9000).attempts = 4) ∧
    ((runEngine cexSlowFail 10000).settled = some (PollResult.pollFailed "failed") ∧
      (runEngine cexSlowFail 10000).attempts = 4) := by
  have hpre : runAux cexSlowFail engineInit 0 7000
      = { attempts := 3, inflight := [(7000, 0), (10000, 1), (13000, 2)],
          cleared := false, settled := none } := slow_prefix_7000 (some 5) failEnvs
  have hq1 : ∀ u, 7000 + 1 ≤ u → u < 7000 + 1 + 1999 →
      stepEngine cexSlowFail u
        { attempts := 3, inflight := [(10000, 1), (13000, 2)],
          cleared := false, settled := none }
      = { attempts := 3, inflight := [(10000, 1), (13000, 2)],
          cleared := false, settled := none } := by
    intro u hu1 hu2
    apply stepEngine_quiet
    · intro hc
      have hmod : u % 3000 = 0 := hc.1
      omega
    · intro c hc
      cases hc with
      | head =>
        show u < 10000
        omega
      | tail _ hc2 =>
        cases hc2 with
        | head =>
          show u < 13000
          omega
        | tail _ hc3 => cases hc3
  have hq2 : ∀ u, 9000 + 1 ≤ u → u < 9000 + 1 + 999 →
      stepEngine cexSlowFail u
        { attempts := 4, inflight := [(10000, 1), (13000, 2), (16000, 3)],
          cleared := false, settled := none }
      = { attempts := 4, inflight := [(10000, 1), (13000, 2), (16000, 3)],
          cleared := false, settled := none } := by
    intro u hu1 hu2
    apply stepEngine_quiet
    · intro hc
      have hmod : u % 3000 = 0 := hc.1
      omega
    · intro c hc
      cases hc with
      | head =>
        show u < 10000
        omega
      | tail _ hc2 =>
        cases hc2 with
        | head =>
          show u < 13000
          omega
        | tail _ hc3 =>
          cases hc3 with
          | head =>
            show u < 16000
            omega
          | tail _ hc4 => cases hc4
  have hop9 := runAux_hop cexSlowFail
    { attempts := 3, inflight := [(7000, 0), (10000, 1), (13000, 2)],
      cleared := false, settled := none }
    { attempts := 3, inflight := [(10000, 1), (13000, 2)], cleared := false, settled := none }
    7000 1999 1 (by decide) hq1
  have hop10 := runAux_hop cexSlowFail
    { attempts := 3, inflight := [(7000, 0), (10000, 1), (13000, 2)],
      cleared := false, settled := none }
    { attempts := 3, inflight := [(10000, 1), (13000, 2)], cleared := false, settled := none }
    7000 1999 (1 + (999 + 1)) (by decide) hq1
  have hop10b := runAux_hop cexSlowFail
    { attempts := 3, inflight := [(10000, 1), (13000, 2)], cleared := false, settled := none }
    { attempts := 4, inflight := [(10000, 1), (13000, 2), (16000, 3)],
      cleared := false, settled := none }
    9000 999 1 (by decide) hq2
  have hadd9 := runAux_add cexSlowFail engineInit 0 7000 2001
  rw [hpre] at hadd9
  have hrun9 : runEngine cexSlowFail 9000
      = { attempts := 4, inflight := [(10000, 1), (13000, 2), (16000, 3)],
          cleared := false, settled := none } := by
    refine hadd9.trans ?_
    refine hop9.trans ?_
    decide
  have hadd10 := runAux_add cexSlowFail engineInit 0 7000 3001
  rw [hpre] at hadd10
  have hrun10 : runEngine cexSlowFail 10000
      = { attempts := 4, inflight := [(13000, 2), (16000, 3)],
          cleared := true, settled := some (PollResult.pollFailed "failed") } := by
    refine hadd10.trans ?_
    refine hop10.trans ?_
    refine hop10b.trans ?_
    decide
  refine ⟨rfl, rfl, rfl, ⟨?_, ?_⟩, ⟨?_, ?_⟩⟩
  · rw [hrun9]
  · rw [hrun9]
  · rw [hrun10]
  · rw [hrun10]

/-- Claim C7 as amended: in the serialized regime, the first probe of
waitForLoggedIn whose observed session state is failed or expired - all
earlier observed states being neither loggedIn nor terminal, with the
budget not yet exhausted - settles the run immediately at its
completion with the PollFailed error carrying that terminal state,
exactly that many probes have been issued, and no further probe is
ever issued; when round-trips outlast the 3000 ms interval, ticks may
have issued extra probes before the failure is observed (see the
counterexample). -/
theorem login_poll_failure_stops (maxA : Nat) (probe : Nat → Except UError String)
    (lat : Nat → Nat) (j0 : Nat) (sF : String)
    (hser : Serial (waitForLoggedInP (some (maxA : Int)) probe lat))
    (hbud : j0 < maxA)
    (hearlier : ∀ j, j < j0 →
      ∃ s, probe j = .ok s ∧ s ≠ "loggedIn" ∧ s ≠ "failed" ∧ s ≠ "expired")
    (hfail : probe j0 = .ok sF) (hsF : sF = "failed" ∨ sF = "expired") :
    (∀ T, j0 * 3000 + lat j0 ≤ T →
      (runEngine (waitForLoggedInP (some (maxA : Int)) probe lat) T).settled
          = some (PollResult.pollFailed sF) ∧
      (runEngine (waitForLoggedInP (some (maxA : Int)) probe lat) T).attempts = j0 + 1) ∧
    (∀ T, (runEngine (waitForLoggedInP (some (maxA : Int)) probe lat) T).attempts ≤ j0 + 1) := by
  have hnone : ∀ j, j < j0 →
      bodyAct (waitForLoggedInP (some (maxA : Int)) probe lat) (j + 1) j = none := by
    intro j hj
    obtain ⟨s, hs, h1, h2, h3⟩ := hearlier j hj
    simp [bodyAct, waitForLoggedInP, hs, h1, h2, h3, maxHit]
    omega
  have hstop : bodyAct (waitForLoggedInP (some (maxA : Int)) probe lat) (j0 + 1) j0
      = some (PollResult.pollFailed sF) := by
    rcases hsF with rfl | rfl <;> simp [bodyAct, waitForLoggedInP, hfail]
  constructor
  · intro T hT
    have hr := run_stops (waitForLoggedInP (some (maxA : Int)) probe lat) hser.2 j0
      (PollResult.pollFailed sF) hnone hstop T hT
    rw [hr]
    exact ⟨rfl, rfl⟩
  · intro T
    exact run_stop_attempts_le (waitForLoggedInP (some (maxA : Int)) probe lat) hser.2 j0
      (PollResult.pollFailed sF) hnone hstop T

/-- Witness for the amended C7, matching the spec scenario: failed
observed on the second call with budget 5 - the run rejects with the
failure right after the second probe and no third probe occurs. -/
theorem login_poll_failure_stops_inst :
    (runEngine wParamsFail 3001).settled = some (PollResult.pollFailed "failed") ∧
    (runEngine wParamsFail 3001).attempts = 2 :=
  (login_poll_failure_stops 5 (sessionProbeOf (some "sid") failEnvs) (fun _ => 1) 1 "failed"
    ⟨by simp [waitForLoggedInP], fun i => ⟨Nat.le_refl 1, by simp [waitForLoggedInP]⟩⟩
    (by omega)
    (fun j hj => ⟨"scanned", by
      have hj0 : j = 0 := by omega
      rw [hj0]
      rfl, by decide, by decide, by decide⟩)
    rfl (Or.inl rfl)).1 3001 (by omega)

/-- Claim C10: no polling run ever settles with zero probes issued -
the budget is only consulted inside a probe's completion body, so a
settlement implies at least one started probe; moreover, with a
maxAttempts of 0 or a negative value and a first observed state that is
neither success nor failure, the serialized run settles with the
polling timeout at the first probe's completion, after exactly one
probe. -/
theorem poll_at_least_one_probe (p : PollParams σ ε) :
    (∀ T, (runEngine p T).settled.isSome = true → 1 ≤ (runEngine p T).attempts) ∧
    (∀ z : Int, ∀ s : σ, Serial p → p.max = some z → z ≤ 0 → p.probe 0 = .ok s →
      p.isSuccess s = false → p.isFailure s = false →
      (∀ T, p.latency 0 ≤ T →
        (runEngine p T).settled = some PollResult.pollTimeout ∧
        (runEngine p T).attempts = 1) ∧
      (∀ T, (runEngine p T).attempts ≤ 1)) := by
  constructor
  · intro T hT
    by_contra hlt
    have h0 : (runEngine p T).attempts = 0 := by omega
    have hres := runAux_zero_inv p engineInit 0 (T + 1) (fun _ => ⟨rfl, rfl, rfl⟩) h0
    have hsettled : (runEngine p T).settled = none := hres.2.2
    rw [hsettled] at hT
    simp at hT
  · intro z s hser hmax hz hprobe hsucc hfailp
    have hnone : ∀ j, j < 0 → bodyAct p (j + 1) j = none := by
      intro j hj
      omega
    have hstop : bodyAct p (0 + 1) 0 = some PollResult.pollTimeout := by
      simp [bodyAct, hprobe, hsucc, hfailp, maxHit, hmax]
      omega
    constructor
    · intro T hT
      have hr := run_stops p hser.2 0 PollResult.pollTimeout hnone hstop T (by omega)
      rw [hr]
      exact ⟨rfl, rfl⟩
    · intro T
      exact run_stop_attempts_le p hser.2 0 PollResult.pollTimeout hnone hstop T

/-- Witness for C10: budget 0 with 1 ms round-trips - one probe, then
the polling timeout. -/
theorem poll_at_least_one_probe_inst :
    (runEngine wParamsZero 1).settled = some PollResult.pollTimeout ∧
    (runEngine wParamsZero 1).attempts = 1 :=
  ((poll_at_least_one_probe wParamsZero).2 0 "scanned"
    ⟨by rw [show wParamsZero.interval = 3000 from rfl]; omega,
     fun i => ⟨Nat.le_refl 1, by rw [show wParamsZero.latency i = 1 from rfl,
       show wParamsZero.interval = 3000 from rfl]; omega⟩⟩
    rfl (by omega) rfl rfl rfl).1 1 (Nat.le_refl 1)

/-- Claim C10 counterexample: with budget 0 against 7000 ms
round-trips, the run does reject with the polling timeout only at the
first completion, but by then three probes have been issued - more than
the single probe the claim describes (the zero-probe impossibility
itself is proved above). -/
theorem poll_budget_zero_extra_probe :
    cexBudgetZero.max = some 0 ∧
    (∀ i, cexBudgetZero.probe i = .ok "scanned") ∧
    (runEngine cexBudgetZero 7000).settled = some PollResult.pollTimeout ∧
    (runEngine cexBudgetZero 7000).attempts = 3 := by
  have hpre : runAux cexBudgetZero engineInit 0 7000
      = { attempts := 3, inflight := [(7000, 0), (10000, 1), (13000, 2)],
          cleared := false, settled := none } := slow_prefix_7000 (some 0) pendEnvs
  have hadd := runAux_add cexBudgetZero engineInit 0 7000 1
  rw [hpre] at hadd
  have hrun : runEngine cexBudgetZero 7000
      = { attempts := 3, inflight := [(10000, 1), (13000, 2)],
          cleared := true, settled := some PollResult.pollTimeout } := by
    refine hadd.trans ?_
    decide
  refine ⟨rfl, fun i => rfl, ?_, ?_⟩
  · rw [hrun]
  · rw [hrun]
